import Mathlib

/-!
Shallow embedding of the state-caching Samsung air-conditioner client
(class `SamsungAirco`): the cache fields set in the constructor, the
central cached read `_getDeviceState`, the write path
`_executeSetCommand`, and the device-index handling of the read and
write commands.  Times are milliseconds as natural numbers.  The
transport outcome of a fetch or write is injected as an `Except` value,
mirroring the promise returned by `execRequest`; a fetch that resolves
carries the `JSON.parse` of the jq output `.Devices[i]`, which is the
indexed device object or JS `null` (modelled as `Option.none`) when the
index is out of range.
-/

/-- A parsed device object: the value of `.Devices[i]` in a fetch
response when the index is in range.  Fields follow the getters of the
source (`state.Operation.power`, `state.Temperatures[0].current`,
`state.Temperatures[0].desired`, `state.Mode.modes`,
`state.Mode.options`). -/
structure DeviceState where
  power : String
  currentTemp : Int
  desiredTemp : Int
  modes : List String
  modeOptions : List String
deriving DecidableEq

/-- The cache fields of `SamsungAirco`: `this.cache` (a parsed state or
JS `null`) and `this.lastCacheTime`, as initialised in the
constructor. -/
structure ClientState where
  cache : Option DeviceState
  lastCacheTime : Nat
deriving DecidableEq

/-- `this.cacheDuration = 2000` from the constructor: the cache TTL in
milliseconds. -/
def cacheDuration : Nat := 2000

/-- The constructor sets `this.cache = null` and
`this.lastCacheTime = 0`. -/
def initialState : ClientState := ⟨none, 0⟩

/-- The jq filter `.Devices[i]` applied to the device list of a fetch
response, followed by `JSON.parse` of its output: the indexed device
object, or JS `null` (`none`, since jq prints `null`) when the index is
out of range. -/
def parseIndexedDevice (devices : List DeviceState) (i : Nat) : Option DeviceState :=
  devices.get? i

/-- The observable outcome of one `_getDeviceState()` call: the value
returned or error thrown (`Except.error ()` is the thrown error
`Could not retrieve device state`; `.ok none` means the function
returned JS `null`), the client cache state after the call, and whether
a transport fetch was performed by the call. -/
structure GetResult where
  ret : Except Unit (Option DeviceState)
  st : ClientState
  fetched : Bool

/-- `_getDeviceState()`: if `this.cache` is truthy and
`now - this.lastCacheTime < this.cacheDuration`, return the cache with
no fetch.  Otherwise fetch; on a fetch that resolves and parses, set
`this.cache = state` (wholesale) and `this.lastCacheTime = now` (the
time captured at entry) and return the state.  On a rejected fetch or a
parse error, return the existing cache if truthy, without touching the
timestamp; otherwise throw.  The argument `fetch` is the outcome the
transport would deliver if a fetch is issued. -/
def getDeviceState (s : ClientState) (now : Nat)
    (fetch : Except Unit (Option DeviceState)) : GetResult :=
  if s.cache.isSome = true ∧ now - s.lastCacheTime < cacheDuration then
    ⟨.ok s.cache, s, false⟩
  else
    match fetch with
    | .ok st => ⟨.ok st, ⟨st, now⟩, true⟩
    | .error _ =>
      match s.cache with
      | some c => ⟨.ok (some c), s, true⟩
      | none => ⟨.error (), s, true⟩

/-- The cache-clearing step `this.cache = null` performed by
`_executeSetCommand` after a successful write.  Only the cached state is
assigned; `this.lastCacheTime` is not touched anywhere on this path. -/
def invalidate (s : ClientState) : ClientState :=
  ⟨none, s.lastCacheTime⟩

/-- `_executeSetCommand(endpoint, data)`: await the write; if the
transport rejects, the error propagates out of the async function before
any assignment; on success, clear the cache. -/
def executeSetCommand (s : ClientState) (write : Except Unit Unit) :
    Except Unit Unit × ClientState :=
  match write with
  | .ok _ => (.ok (), invalidate s)
  | .error e => (.error e, s)

/-- The configuration field relevant to device addressing:
`this.deviceIndex = config.deviceIndex || 0` from the constructor. -/
structure Config where
  deviceIndex : Nat
deriving DecidableEq

/-- The device index used by the read path: the fetch command pipes the
response through the jq filter `.Devices[${this.deviceIndex}]`. -/
def readDeviceIndex (c : Config) : Nat := c.deviceIndex

/-- Endpoint of the power write: `_executeSetCommand` is called from
`setActive` with the literal endpoint below, appended to
`https://ip:8888/devices`. -/
def setActiveEndpoint : String := "/0"

/-- Endpoint of the target-temperature write, literal in
`setTargetTemperature`. -/
def setTargetTemperatureEndpoint : String := "/0/temperatures/0"

/-- Endpoint of the swing-mode write, literal in `setSwingMode` (also
used by `setTargetHeaterCoolerState`). -/
def setSwingModeEndpoint : String := "/0/mode"

/-- Decimal value of one character, when it is a digit. -/
def charDigit (c : Char) : Option Nat :=
  if 48 ≤ c.toNat ∧ c.toNat ≤ 57 then some (c.toNat - 48) else none

/-- Decimal value of a nonempty all-digit character list. -/
def digitsValue (cs : List Char) : Option Nat :=
  match cs with
  | [] => none
  | _ =>
    cs.foldl (fun acc c => acc.bind (fun n => (charDigit c).map (fun d => n * 10 + d)))
      (some 0)

/-- Observer: the device index addressed by a write endpoint appended to
`…/devices`, i.e. the first path segment of the endpoint read as a
number. -/
def endpointDeviceIndex (e : String) : Option Nat :=
  digitsValue ((e.data.drop 1).takeWhile (fun c => c ≠ '/'))

/-- A sample parsed device object, used as a concrete input. -/
def sampleState : DeviceState :=
  ⟨"On", 24, 22, ["Cool"], ["Comode_Off"]⟩

section Lemmas

/-- Evaluation of `_getDeviceState` when the cache is fresh: the cached
value is returned and no fetch happens. -/
theorem getDeviceState_of_fresh (s : ClientState) (now : Nat)
    (fetch : Except Unit (Option DeviceState))
    (h : s.cache.isSome = true ∧ now - s.lastCacheTime < cacheDuration) :
    getDeviceState s now fetch = ⟨.ok s.cache, s, false⟩ := by
  unfold getDeviceState
  rw [if_pos h]

/-- Evaluation of `_getDeviceState` when the cache is not fresh and the
fetch resolves: the parsed value replaces the cache wholesale and the
timestamp becomes the entry time. -/
theorem getDeviceState_of_stale_ok (s : ClientState) (now : Nat)
    (st : Option DeviceState)
    (h : ¬(s.cache.isSome = true ∧ now - s.lastCacheTime < cacheDuration)) :
    getDeviceState s now (.ok st) = ⟨.ok st, ⟨st, now⟩, true⟩ := by
  unfold getDeviceState
  rw [if_neg h]

/-- Evaluation of `_getDeviceState` when the cache is not fresh, the
fetch fails and a cached value exists: the stale value is returned and
the client state is untouched. -/
theorem getDeviceState_of_stale_error_some (s : ClientState) (now : Nat)
    (e : Unit) (c : DeviceState) (hc : s.cache = some c)
    (h : ¬(s.cache.isSome = true ∧ now - s.lastCacheTime < cacheDuration)) :
    getDeviceState s now (.error e) = ⟨.ok (some c), s, true⟩ := by
  unfold getDeviceState
  rw [if_neg h, hc]

/-- Evaluation of `_getDeviceState` when the cache is empty and the
fetch fails: the error is thrown. -/
theorem getDeviceState_of_stale_error_none (s : ClientState) (now : Nat)
    (e : Unit) (hc : s.cache = none)
    (h : ¬(s.cache.isSome = true ∧ now - s.lastCacheTime < cacheDuration)) :
    getDeviceState s now (.error e) = ⟨.error (), s, true⟩ := by
  unfold getDeviceState
  rw [if_neg h, hc]

/-- Whenever the freshness guard fails, every branch of
`_getDeviceState` performs a fetch. -/
theorem getDeviceState_fetched_of_not_fresh (s : ClientState) (now : Nat)
    (fetch : Except Unit (Option DeviceState))
    (h : ¬(s.cache.isSome = true ∧ now - s.lastCacheTime < cacheDuration)) :
    (getDeviceState s now fetch).fetched = true := by
  unfold getDeviceState
  rw [if_neg h]
  match fetch with
  | .ok st => rfl
  | .error e =>
    match hc : s.cache with
    | some c => simp
    | none => simp

/-- If a call performed a fetch, the freshness guard failed. -/
theorem not_fresh_of_fetched (s : ClientState) (now : Nat)
    (fetch : Except Unit (Option DeviceState))
    (h : (getDeviceState s now fetch).fetched = true) :
    ¬(s.cache.isSome = true ∧ now - s.lastCacheTime < cacheDuration) := by
  intro hfresh
  rw [getDeviceState_of_fresh s now fetch hfresh] at h
  exact Bool.false_ne_true h

end Lemmas

/-- C1: for every cache state, a pair of `_getDeviceState` calls within
the TTL of one another with no intervening invalidate or write performs
exactly one transport fetch: once the first call has fetched a present
device state, the second call performs no fetch, returns the cached
state, and leaves the client state unchanged. -/
theorem C1_freshness (s : ClientState) (t tq : Nat) (d : DeviceState)
    (fetchq : Except Unit (Option DeviceState))
    (h1 : (getDeviceState s t (.ok (some d))).fetched = true)
    (_h2 : t ≤ tq) (h3 : tq - t < cacheDuration) :
    (getDeviceState (getDeviceState s t (.ok (some d))).st tq fetchq).fetched = false ∧
    (getDeviceState (getDeviceState s t (.ok (some d))).st tq fetchq).ret = .ok (some d) ∧
    (getDeviceState (getDeviceState s t (.ok (some d))).st tq fetchq).st =
      (getDeviceState s t (.ok (some d))).st := by
  have hns := not_fresh_of_fetched s t (.ok (some d)) h1
  rw [getDeviceState_of_stale_ok s t (some d) hns]
  have hfresh : ((⟨some d, t⟩ : ClientState).cache.isSome = true ∧
      tq - (⟨some d, t⟩ : ClientState).lastCacheTime < cacheDuration) := ⟨rfl, h3⟩
  rw [getDeviceState_of_fresh ⟨some d, t⟩ tq fetchq hfresh]
  exact ⟨rfl, rfl, rfl⟩

/-- Witness for C1 at a concrete input: empty cache, first call at t=0
fetches `sampleState`, second call at t=1000 is served from cache. -/
theorem C1_freshness_witness :
    (getDeviceState (getDeviceState initialState 0 (.ok (some sampleState))).st 1000
      (.error ())).fetched = false ∧
    (getDeviceState (getDeviceState initialState 0 (.ok (some sampleState))).st 1000
      (.error ())).ret = .ok (some sampleState) ∧
    (getDeviceState (getDeviceState initialState 0 (.ok (some sampleState))).st 1000
      (.error ())).st = (getDeviceState initialState 0 (.ok (some sampleState))).st :=
  C1_freshness initialState 0 1000 sampleState (.error ()) rfl (by omega) (by decide)

/-- C2: with a previously fetched state in the cache, a later
`_getDeviceState` whose fetch fails returns the last successful state
instead of an error, leaves the client state (cache and timestamp)
untouched, and the immediately following call attempts a fetch again. -/
theorem C2_graceful_degradation (s : ClientState) (t tq : Nat) (c : DeviceState)
    (fetchq : Except Unit (Option DeviceState))
    (hc : s.cache = some c) (hstale : cacheDuration ≤ t - s.lastCacheTime)
    (ht : t ≤ tq) :
    getDeviceState s t (.error ()) = ⟨.ok (some c), s, true⟩ ∧
    (getDeviceState s tq fetchq).fetched = true := by
  have hns : ¬(s.cache.isSome = true ∧ t - s.lastCacheTime < cacheDuration) := by
    intro h
    omega
  have hnsq : ¬(s.cache.isSome = true ∧ tq - s.lastCacheTime < cacheDuration) := by
    intro h
    have : t - s.lastCacheTime ≤ tq - s.lastCacheTime := Nat.sub_le_sub_right ht _
    omega
  exact ⟨getDeviceState_of_stale_error_some s t () c hc hns,
    getDeviceState_fetched_of_not_fresh s tq fetchq hnsq⟩

/-- Witness for C2 at a concrete input: cache filled at time 0, fetch
fails at t=2000, next call at t=2500 fetches again. -/
theorem C2_graceful_degradation_witness :
    getDeviceState ⟨some sampleState, 0⟩ 2000 (.error ()) =
      ⟨.ok (some sampleState), ⟨some sampleState, 0⟩, true⟩ ∧
    (getDeviceState ⟨some sampleState, 0⟩ 2500 (.error ())).fetched = true :=
  C2_graceful_degradation ⟨some sampleState, 0⟩ 2000 2500 sampleState (.error ())
    rfl (by decide) (by omega)

/-- C3: when no fetch has ever succeeded (cache empty), a
`_getDeviceState` whose fetch fails throws the
`Could not retrieve device state` error and returns no placeholder; the
client state is unchanged. -/
theorem C3_state_unavailable (s : ClientState) (t : Nat) (hc : s.cache = none) :
    getDeviceState s t (.error ()) = ⟨.error (), s, true⟩ := by
  have hns : ¬(s.cache.isSome = true ∧ t - s.lastCacheTime < cacheDuration) := by
    intro h
    rw [hc] at h
    exact Bool.false_ne_true h.1
  exact getDeviceState_of_stale_error_none s t () hc hns

/-- Witness for C3 at the constructor state. -/
theorem C3_state_unavailable_witness :
    getDeviceState initialState 5 (.error ()) = ⟨.error (), initialState, true⟩ :=
  C3_state_unavailable initialState 5 rfl

/-- C4: after a `_executeSetCommand` whose transport write succeeds, the
write reports success and the next `_getDeviceState` performs a live
fetch regardless of how recently the cache was filled. -/
theorem C4_write_invalidates (s : ClientState) (t : Nat)
    (fetch : Except Unit (Option DeviceState)) :
    (executeSetCommand s (.ok ())).1 = .ok () ∧
    (getDeviceState (executeSetCommand s (.ok ())).2 t fetch).fetched = true := by
  refine ⟨rfl, getDeviceState_fetched_of_not_fresh _ t fetch ?_⟩
  intro h
  exact Bool.false_ne_true h.1

/-- C5 evaluation at the failing input: with a stale cached state
present, a fetch whose response has the configured index out of range
(jq prints `null`, `JSON.parse` succeeds with `null`) is NOT treated as
a failure: the call returns JS `null` as the state, overwrites the stale
cache with `null`, and stamps the timestamp. -/
theorem C5_absent_device_not_failure :
    getDeviceState ⟨some sampleState, 0⟩ 2500 (.ok (parseIndexedDevice [] 0)) =
      ⟨.ok none, ⟨none, 2500⟩, true⟩ := rfl

/-- Status of one `_getDeviceState()` task in the event-loop model of
the async source: the code between the entry and the `await` on the
fetch runs atomically, as does the code after the `await`. -/
inductive TaskState
  | awaitingFetch (now : Nat)
  | done (ret : Except Unit (Option DeviceState))

/-- Shared state seen by the concurrent tasks: the cache fields of the
single client instance, plus a count of the fetches that have been
issued to the transport. -/
structure World where
  client : ClientState
  fetchCount : Nat

/-- First atomic segment of `_getDeviceState()`: capture `now`, serve
the cache if present and fresh (done, no fetch), otherwise build the
command and issue the fetch — the task suspends at
`await this.execRequest(command)` with one more fetch in flight. -/
def stepPhase1 (w : World) (callTime : Nat) : World × TaskState :=
  if w.client.cache.isSome = true ∧
      callTime - w.client.lastCacheTime < cacheDuration then
    (w, .done (.ok w.client.cache))
  else
    (⟨w.client, w.fetchCount + 1⟩, .awaitingFetch callTime)

/-- Second atomic segment of `_getDeviceState()`: resumption when the
awaited fetch settles, with the `now` captured at entry.  On a resolved
fetch the parse result replaces the cache; on a rejected fetch the
current cache (possibly written by another task meanwhile) is consulted
for the fallback. -/
def stepPhase2 (w : World) (now : Nat)
    (outcome : Except Unit (Option DeviceState)) : World × TaskState :=
  match outcome with
  | .ok st => (⟨⟨st, now⟩, w.fetchCount⟩, .done (.ok st))
  | .error _ =>
    match w.client.cache with
    | some c => (w, .done (.ok (some c)))
    | none => (w, .done (.error ()))

/-- Phase-1 entries of several concurrent callers, in event-loop order,
all running before any pending fetch resolves. -/
def runPhase1s (w : World) (callTimes : List Nat) : World :=
  callTimes.foldl (fun w t => (stepPhase1 w t).1) w

/-- C6 counterexample: from the constructor state, two concurrent
`_getDeviceState` calls that both enter before either fetch resolves
each issue their own fetch — two fetches are in flight at once, not
one. -/
theorem C6_two_fetches_counterexample :
    (stepPhase1 (stepPhase1 ⟨initialState, 0⟩ 0).1 0).1.fetchCount = 2 ∧
    (stepPhase1 ⟨initialState, 0⟩ 0).2 = .awaitingFetch 0 ∧
    (stepPhase1 (stepPhase1 ⟨initialState, 0⟩ 0).1 0).2 = .awaitingFetch 0 :=
  ⟨rfl, rfl, rfl⟩

/-- C6 amended: the code has no single-flight coalescing — whenever the
cache is not fresh for any of the N concurrent `_getDeviceState` calls
(empty cache or a present-but-stale one), every call entering before any
fetch resolves issues its own transport fetch (N calls, N fetches), and
none of them changes the shared client state while suspended. -/
theorem C6_no_single_flight (w : World) (callTimes : List Nat)
    (hstale : ∀ t ∈ callTimes,
      ¬(w.client.cache.isSome = true ∧
        t - w.client.lastCacheTime < cacheDuration)) :
    (runPhase1s w callTimes).fetchCount = w.fetchCount + callTimes.length ∧
    (runPhase1s w callTimes).client = w.client := by
  induction callTimes generalizing w with
  | nil => exact ⟨rfl, rfl⟩
  | cons t ts ih =>
    have hstep : (stepPhase1 w t).1 = ⟨w.client, w.fetchCount + 1⟩ := by
      unfold stepPhase1
      rw [if_neg (hstale t (List.mem_cons_self t ts))]
    have hrun : runPhase1s w (t :: ts) = runPhase1s (stepPhase1 w t).1 ts := rfl
    rw [hrun, hstep]
    obtain ⟨h1, h2⟩ := ih ⟨w.client, w.fetchCount + 1⟩
      (fun u hu => hstale u (List.mem_cons_of_mem t hu))
    refine ⟨?_, h2⟩
    rw [h1]
    simp only [List.length_cons]
    omega

/-- Witness for C6 amended: three concurrent calls at t=2000 against a
present-but-stale cache filled at t=0 issue three fetches and leave the
shared state unchanged. -/
theorem C6_no_single_flight_witness :
    (runPhase1s ⟨⟨some sampleState, 0⟩, 0⟩ [2000, 2000, 2000]).fetchCount = 3 ∧
    (runPhase1s ⟨⟨some sampleState, 0⟩, 0⟩ [2000, 2000, 2000]).client =
      ⟨some sampleState, 0⟩ :=
  C6_no_single_flight ⟨⟨some sampleState, 0⟩, 0⟩ [2000, 2000, 2000] (by decide)

/-- C7 evaluation at the failing input `deviceIndex = 1`: the read path
fetches `.Devices[1]`, while every write endpoint is the hardcoded
device `0` — the index written to differs from the index read from. -/
theorem C7_read_write_index_asymmetry :
    readDeviceIndex ⟨1⟩ = 1 ∧
    endpointDeviceIndex setActiveEndpoint = some 0 ∧
    endpointDeviceIndex setTargetTemperatureEndpoint = some 0 ∧
    endpointDeviceIndex setSwingModeEndpoint = some 0 ∧
    readDeviceIndex ⟨1⟩ ≠ 0 := by
  refine ⟨rfl, ?_, ?_, ?_, by decide⟩ <;> decide

/-- C8 counterexample: `invalidate` does not clear both fields of the
cache entry — on an entry with timestamp 7 it clears the state but
leaves the timestamp at 7, not at the constructor value 0. -/
theorem C8_timestamp_not_cleared :
    invalidate ⟨some sampleState, 7⟩ = ⟨none, 7⟩ ∧ (7 : Nat) ≠ 0 :=
  ⟨rfl, by decide⟩

/-- C8 amended: `invalidate` unconditionally clears the cached state but
leaves the timestamp unchanged; it is idempotent and a no-op on an
already-empty entry, and because freshness requires a present cached
state, the next `_getDeviceState` still performs a live fetch regardless
of TTL. -/
theorem C8_invalidate_amended (s : ClientState) (t0 t : Nat)
    (fetch : Except Unit (Option DeviceState)) :
    (invalidate s).cache = none ∧
    (invalidate s).lastCacheTime = s.lastCacheTime ∧
    invalidate (invalidate s) = invalidate s ∧
    invalidate ⟨none, t0⟩ = ⟨none, t0⟩ ∧
    (getDeviceState (invalidate s) t fetch).fetched = true := by
  refine ⟨rfl, rfl, rfl, rfl, getDeviceState_fetched_of_not_fresh _ t fetch ?_⟩
  intro h
  exact Bool.false_ne_true h.1

/-- The operations that touch the cache entry: one `_getDeviceState`
call with its entry time and fetch outcome, or one `_executeSetCommand`
call with its write outcome. -/
inductive Op
  | get (now : Nat) (fetch : Except Unit (Option DeviceState))
  | set (write : Except Unit Unit)

/-- Effect of one operation on the cache entry. -/
def applyOp (s : ClientState) : Op → ClientState
  | .get now fetch => (getDeviceState s now fetch).st
  | .set w => (executeSetCommand s w).2

/-- Effect of a sequence of operations on the cache entry, from left to
right. -/
def runOps (s : ClientState) (ops : List Op) : ClientState :=
  ops.foldl applyOp s

/-- C9: invariant over every operation sequence — at any reachable cache
entry, the next operation changes the timestamp only when it is a
`_getDeviceState` whose fetch resolved, and then the whole entry becomes
that parse result stamped with that call entry time; and the cached
state is never partially updated: it is left unchanged, cleared, or
replaced wholesale by the fetched value. -/
theorem C9_cache_update_invariant (s0 : ClientState) (ops : List Op) (op : Op) :
    ((applyOp (runOps s0 ops) op).lastCacheTime = (runOps s0 ops).lastCacheTime ∨
      ∃ now v, op = .get now (.ok v) ∧ applyOp (runOps s0 ops) op = ⟨v, now⟩) ∧
    ((applyOp (runOps s0 ops) op).cache = (runOps s0 ops).cache ∨
      (applyOp (runOps s0 ops) op).cache = none ∨
      ∃ now v, op = .get now (.ok v) ∧ (applyOp (runOps s0 ops) op).cache = v) := by
  generalize runOps s0 ops = s
  cases op with
  | set w =>
    cases w with
    | ok u => exact ⟨Or.inl rfl, Or.inr (Or.inl rfl)⟩
    | error e => exact ⟨Or.inl rfl, Or.inl rfl⟩
  | get now fetch =>
    by_cases hf : s.cache.isSome = true ∧ now - s.lastCacheTime < cacheDuration
    · have hs : applyOp s (.get now fetch) = s := by
        show (getDeviceState s now fetch).st = s
        rw [getDeviceState_of_fresh s now fetch hf]
      rw [hs]
      exact ⟨Or.inl rfl, Or.inl rfl⟩
    · cases fetch with
      | ok v =>
        have hs : applyOp s (.get now (.ok v)) = ⟨v, now⟩ := by
          show (getDeviceState s now (.ok v)).st = _
          rw [getDeviceState_of_stale_ok s now v hf]
        rw [hs]
        exact ⟨Or.inr ⟨now, v, rfl, rfl⟩, Or.inr (Or.inr ⟨now, v, rfl, rfl⟩)⟩
      | error e =>
        have hs : applyOp s (.get now (.error e)) = s := by
          show (getDeviceState s now (.error e)).st = s
          match hc : s.cache with
          | some c => rw [getDeviceState_of_stale_error_some s now e c hc hf]
          | none => rw [getDeviceState_of_stale_error_none s now e hc hf]
        rw [hs]
        exact ⟨Or.inl rfl, Or.inl rfl⟩

/-- C10: if the transport write inside `_executeSetCommand` fails, the
error propagates to the caller and the cache entry (state and timestamp)
is exactly as before the call: invalidation happens only after a
successful write. -/
theorem C10_write_failure_preserves_cache (s : ClientState) :
    executeSetCommand s (.error ()) = (.error (), s) := rfl
